import Mathlib

/-!
# Payment rail cost simulator — verification of the cost engine

Shallow embedding of the cost-aggregation engine of `src/app.py`
(a Streamlit app).  Monetary values and cost parameters are modelled
as rationals (`ℚ`); transaction counts as integers (`ℤ`), matching
Python's arbitrary-precision `int`.  The UI layer (sliders, charts)
is out of scope; the embedded functions are the pure computations the
app performs on its inputs.
-/

/-- The fixed ordered set of payment methods (`PAYMENT_METHODS` in
`src/app.py`, lines 27–35). -/
inductive PaymentMethod where
  | invoice
  | installments
  | prepayment
  | twint
  | visa
  | mastercard
  | paypal
deriving DecidableEq, Repr

/-- Canonical display order of the payment methods (`PAYMENT_METHODS`). -/
def PAYMENT_METHODS : List PaymentMethod :=
  [.invoice, .installments, .prepayment, .twint, .visa, .mastercard, .paypal]

/-- `AVERAGE_BASKET_VALUE = 200.0` (app.py line 38), used to translate
write-off rates into CHF per transaction. -/
def AVERAGE_BASKET_VALUE : ℚ := 200

/-- The five named cost blocks (`cost_blocks` in app.py, lines 188–194). -/
inductive CostBlock where
  | pspFees
  | processCosts
  | devMaintenance
  | writeOffs
  | dunningFeeRevenue
deriving DecidableEq, Repr

/-- Canonical order of the cost blocks (`cost_blocks`, app.py 188–194). -/
def cost_blocks : List CostBlock :=
  [.pspFees, .processCosts, .devMaintenance, .writeOffs, .dunningFeeRevenue]

/-- A per-transaction cost-parameter record for one payment method
(the five keyed entries of `cost_params[pm]` in app.py, lines 175–181). -/
structure CostParams where
  psp_fee : ℚ
  process_cost : ℚ
  dev_maintenance : ℚ
  write_off_rate : ℚ
  dunning_fee_per_tx : ℚ
deriving DecidableEq, Repr

/-- `compute_per_tx_cost_blocks(params)` (app.py lines 197–212): the
per-transaction cost of each block in CHF, revenue negated. -/
def compute_per_tx_cost_blocks (params : CostParams) : CostBlock → ℚ
  | .pspFees => params.psp_fee
  | .processCosts => params.process_cost
  | .devMaintenance => params.dev_maintenance
  | .writeOffs => params.write_off_rate * AVERAGE_BASKET_VALUE
  | .dunningFeeRevenue => -params.dunning_fee_per_tx

/-- One inner-loop pass of `compute_costs` for a single payment method
(app.py lines 220–228): starting from a zero-initialised breakdown row and
a zero running total, fold over `cost_blocks`, adding
`block_cost = per_tx_blocks[cb] * tx` into both.  Returns the breakdown
row (`CostBlock → ℚ`) and `total_cost_pm`. -/
def pm_costs (params : CostParams) (tx : ℤ) : (CostBlock → ℚ) × ℚ :=
  let per_tx_blocks := compute_per_tx_cost_blocks params
  cost_blocks.foldl
    (fun acc cb =>
      let block_cost := per_tx_blocks cb * (tx : ℚ)
      (Function.update acc.1 cb (acc.1 cb + block_cost), acc.2 + block_cost))
    (fun _ => 0, 0)

/-- One output row of `compute_costs` (app.py lines 232–239): transactions,
total cost, and the zero-guarded average cost per transaction. -/
structure SummaryRow where
  transactions : ℤ
  total_cost : ℚ
  avg_cost : ℚ
deriving DecidableEq, Repr

/-- The summary row built for one payment method inside `compute_costs`
(app.py lines 220–239), with `avg_cost_pm = total_cost_pm / tx if tx > 0
else 0.0` (line 230). -/
def summary_row (params : CostParams) (tx : ℤ) : SummaryRow :=
  let total := (pm_costs params tx).2
  { transactions := tx
    total_cost := total
    avg_cost := if 0 < tx then total / (tx : ℚ) else 0 }

/-- `compute_costs(transactions_dict)` (app.py lines 215–244): per payment
method a summary row (the `df` rows) and the breakdown table
(`breakdown_df`), both keyed by payment method.  The global `cost_params`
dict of the app is passed explicitly. -/
def compute_costs (cost_params : PaymentMethod → CostParams)
    (transactions_dict : PaymentMethod → ℤ) :
    (PaymentMethod → SummaryRow) × (PaymentMethod → CostBlock → ℚ) :=
  (fun pm => summary_row (cost_params pm) (transactions_dict pm),
   fun pm => (pm_costs (cost_params pm) (transactions_dict pm)).1)

/-- Truncation of a rational toward zero, the semantics of Python's
`int()` applied to a float product (app.py line 258). -/
def ratTrunc (q : ℚ) : ℤ :=
  if 0 ≤ q then ⌊q⌋ else ⌈q⌉

/-- The scenario-builder loop (app.py lines 255–258):
`factor = 1.0 + relative_changes[pm] / 100.0` and
`scenario_tx[pm] = int(baseline_tx[pm] * growth_factor * factor)`. -/
def scenario_tx (baseline_tx : PaymentMethod → ℤ) (growth_factor : ℚ)
    (relative_changes : PaymentMethod → ℚ) (pm : PaymentMethod) : ℤ :=
  let factor := 1 + relative_changes pm / 100
  ratTrunc ((baseline_tx pm : ℚ) * growth_factor * factor)

/-- Grand total cost for one scenario: `df["Total cost (CHF)"].sum()`
(app.py lines 267–268). -/
def grand_total_cost (cost_params : PaymentMethod → CostParams)
    (transactions_dict : PaymentMethod → ℤ) : ℚ :=
  (PAYMENT_METHODS.map
    (fun pm => ((compute_costs cost_params transactions_dict).1 pm).total_cost)).sum

/-- Grand total transactions for one scenario: `df["Transactions"].sum()`
(app.py lines 264–265). -/
def grand_total_transactions (cost_params : PaymentMethod → CostParams)
    (transactions_dict : PaymentMethod → ℤ) : ℤ :=
  (PAYMENT_METHODS.map
    (fun pm => ((compute_costs cost_params transactions_dict).1 pm).transactions)).sum

/-- Grand average cost per transaction with zero guard (app.py lines
270–279): `total_cost / total_transactions if total_transactions > 0
else 0.0`. -/
def grand_avg_cost (cost_params : PaymentMethod → CostParams)
    (transactions_dict : PaymentMethod → ℤ) : ℚ :=
  if 0 < grand_total_transactions cost_params transactions_dict then
    grand_total_cost cost_params transactions_dict /
      (grand_total_transactions cost_params transactions_dict : ℚ)
  else 0

/-- `comparison_df["Cost delta (CHF)"]` (app.py lines 326–328): scenario
cost minus baseline cost, per payment method. -/
def comparison_cost_delta (cost_params : PaymentMethod → CostParams)
    (baseline_tx scen_tx : PaymentMethod → ℤ) (pm : PaymentMethod) : ℚ :=
  ((compute_costs cost_params scen_tx).1 pm).total_cost -
    ((compute_costs cost_params baseline_tx).1 pm).total_cost

/-- `comparison_df["Cost delta (%)"]` (app.py lines 329–335):
`np.where(baseline_cost > 0, delta / baseline_cost * 100, 0.0)`. -/
def comparison_cost_delta_pct (cost_params : PaymentMethod → CostParams)
    (baseline_tx scen_tx : PaymentMethod → ℤ) (pm : PaymentMethod) : ℚ :=
  if 0 < ((compute_costs cost_params baseline_tx).1 pm).total_cost then
    comparison_cost_delta cost_params baseline_tx scen_tx pm /
      ((compute_costs cost_params baseline_tx).1 pm).total_cost * 100
  else 0

/-- The `Cost delta (%)` entry of the TOTAL row (app.py lines 345–354):
computed from the summed baseline and scenario cost columns of
`comparison_df`, guarded by `baseline sum > 0`. -/
def total_row_cost_delta_pct (cost_params : PaymentMethod → CostParams)
    (baseline_tx scen_tx : PaymentMethod → ℤ) : ℚ :=
  let baseline_sum := (PAYMENT_METHODS.map
    (fun pm => ((compute_costs cost_params baseline_tx).1 pm).total_cost)).sum
  let scen_sum := (PAYMENT_METHODS.map
    (fun pm => ((compute_costs cost_params scen_tx).1 pm).total_cost)).sum
  if 0 < baseline_sum then (scen_sum - baseline_sum) / baseline_sum * 100 else 0

/-- The derived `Total` column of `scenario_breakdown_ordered`
(app.py line 380): row-wise sum of the five block columns. -/
def breakdown_total_column (cost_params : PaymentMethod → CostParams)
    (transactions_dict : PaymentMethod → ℤ) (pm : PaymentMethod) : ℚ :=
  (cost_blocks.map ((compute_costs cost_params transactions_dict).2 pm)).sum

/-- `scenario_chart_df["Cost share (%)"]` (app.py lines 405–409): share of
the grand total cost, or `0.0` when the grand total cost is not positive. -/
def cost_share_pct (cost_params : PaymentMethod → CostParams)
    (transactions_dict : PaymentMethod → ℤ) (pm : PaymentMethod) : ℚ :=
  if 0 < grand_total_cost cost_params transactions_dict then
    ((compute_costs cost_params transactions_dict).1 pm).total_cost /
      grand_total_cost cost_params transactions_dict * 100
  else 0

/-- `scenario_chart_df["Transaction share (%)"]` (app.py lines 410–414):
share of the grand total transactions, or `0.0` when that total is not
positive. -/
def transaction_share_pct (cost_params : PaymentMethod → CostParams)
    (transactions_dict : PaymentMethod → ℤ) (pm : PaymentMethod) : ℚ :=
  if 0 < grand_total_transactions cost_params transactions_dict then
    (((compute_costs cost_params transactions_dict).1 pm).transactions : ℚ) /
      (grand_total_transactions cost_params transactions_dict : ℚ) * 100
  else 0

/-!
## Helper lemmas about the engine
-/

/-- Each breakdown cell produced by the `compute_costs` inner loop equals
the per-transaction block value times the transaction count. -/
theorem pm_costs_fst (params : CostParams) (tx : ℤ) (cb : CostBlock) :
    (pm_costs params tx).1 cb = compute_per_tx_cost_blocks params cb * (tx : ℚ) := by
  cases cb <;>
    simp [pm_costs, cost_blocks, Function.update, compute_per_tx_cost_blocks]

/-- The running total accumulated by the `compute_costs` inner loop equals
the sum of the five block costs. -/
theorem pm_costs_snd (params : CostParams) (tx : ℤ) :
    (pm_costs params tx).2 = (cost_blocks.map
      (fun cb => compute_per_tx_cost_blocks params cb * (tx : ℚ))).sum := by
  simp [pm_costs, cost_blocks]
  ring

/-- Summing `x / S * 100` over a list of rationals gives
`sum / S * 100`. -/
theorem sum_map_div_mul (l : List ℚ) (S : ℚ) :
    (l.map (fun x => x / S * 100)).sum = l.sum / S * 100 := by
  induction l with
  | nil => simp
  | cons a t ih =>
      simp only [List.map_cons, List.sum_cons, ih]
      ring

/-- `ratTrunc` truncates toward zero: its magnitude is the floor of the
magnitude of its argument. -/
theorem ratTrunc_abs (q : ℚ) : |ratTrunc q| = ⌊|q|⌋ := by
  rcases le_or_lt 0 q with h | h
  · rw [ratTrunc, if_pos h, abs_of_nonneg h,
      abs_of_nonneg (Int.floor_nonneg.mpr h)]
  · rw [ratTrunc, if_neg (not_le.mpr h), abs_of_neg h,
      abs_of_nonpos (Int.ceil_le.mpr (by exact_mod_cast h.le)), Int.floor_neg]

/-!
## Claim theorems
-/

/-- Claim C1: for every category and cost-parameter record, the per-unit
value of each of the five cost blocks is the spec's fixed formula
(PSP fees = `psp_fee`, Process costs = `process_cost`, Dev & maintenance =
`dev_maintenance`, Write-offs = `write_off_rate * AVERAGE_BASKET_VALUE`,
Dunning fee revenue = `-dunning_fee_per_tx`), and every breakdown cell is
that per-unit value times the category's quantity. -/
theorem compute_per_tx_cost_blocks_spec (cost_params : PaymentMethod → CostParams)
    (transactions_dict : PaymentMethod → ℤ) (pm : PaymentMethod) :
    compute_per_tx_cost_blocks (cost_params pm) CostBlock.pspFees =
      (cost_params pm).psp_fee ∧
    compute_per_tx_cost_blocks (cost_params pm) CostBlock.processCosts =
      (cost_params pm).process_cost ∧
    compute_per_tx_cost_blocks (cost_params pm) CostBlock.devMaintenance =
      (cost_params pm).dev_maintenance ∧
    compute_per_tx_cost_blocks (cost_params pm) CostBlock.writeOffs =
      (cost_params pm).write_off_rate * AVERAGE_BASKET_VALUE ∧
    compute_per_tx_cost_blocks (cost_params pm) CostBlock.dunningFeeRevenue =
      -(cost_params pm).dunning_fee_per_tx ∧
    ∀ cb, (compute_costs cost_params transactions_dict).2 pm cb =
      compute_per_tx_cost_blocks (cost_params pm) cb * (transactions_dict pm : ℚ) :=
  ⟨rfl, rfl, rfl, rfl, rfl, fun cb => pm_costs_fst _ _ cb⟩

/-- Claim C2: per category, the average cost per transaction is
`totalCost / quantity` when the quantity is positive and exactly `0`
otherwise; the grand average cost per transaction is guarded the same way.
In this total, exact-arithmetic model neither ratio can produce an
exception, NaN or infinity. -/
theorem avg_cost_per_transaction_guard (cost_params : PaymentMethod → CostParams)
    (transactions_dict : PaymentMethod → ℤ) (pm : PaymentMethod) :
    ((compute_costs cost_params transactions_dict).1 pm).avg_cost =
      (if 0 < ((compute_costs cost_params transactions_dict).1 pm).transactions then
        ((compute_costs cost_params transactions_dict).1 pm).total_cost /
          (((compute_costs cost_params transactions_dict).1 pm).transactions : ℚ)
       else 0) ∧
    grand_avg_cost cost_params transactions_dict =
      (if 0 < grand_total_transactions cost_params transactions_dict then
        grand_total_cost cost_params transactions_dict /
          (grand_total_transactions cost_params transactions_dict : ℚ)
       else 0) :=
  ⟨rfl, rfl⟩

/-- Concrete input for the C3 counterexample: one transaction on
Invoice whose only nonzero parameter is a dunning fee revenue of 1 CHF,
so the grand total cost is -1 (negative and nonzero). -/
def c3cx_params : PaymentMethod → CostParams := fun pm =>
  match pm with
  | .invoice => ⟨0, 0, 0, 0, 1⟩
  | _ => ⟨0, 0, 0, 0, 0⟩

/-- Transaction counts for the C3 counterexample: 1 on Invoice, 0
elsewhere (all quantities non-negative, a valid input). -/
def c3cx_tx : PaymentMethod → ℤ := fun pm =>
  match pm with
  | .invoice => 1
  | _ => 0

/-- Claim C3 counterexample: with one Invoice transaction whose only cost
is a dunning revenue of 1, the grand total cost is -1 ≠ 0, yet every
cost share is 0 (the code's guard is `> 0`, not `≠ 0`), so the shares sum
to 0, not 100 — refuting the claim that a nonzero grand total forces the
shares to sum to 100. -/
theorem cost_share_sum_counterexample :
    grand_total_cost c3cx_params c3cx_tx = -1 ∧
    (PAYMENT_METHODS.map (cost_share_pct c3cx_params c3cx_tx)).sum = 0 ∧
    ¬ (grand_total_cost c3cx_params c3cx_tx ≠ 0 →
        (PAYMENT_METHODS.map (cost_share_pct c3cx_params c3cx_tx)).sum = 100) := by
  have hg : grand_total_cost c3cx_params c3cx_tx = -1 := by
    simp [grand_total_cost, compute_costs, summary_row, pm_costs, cost_blocks,
      PAYMENT_METHODS, compute_per_tx_cost_blocks, c3cx_params, c3cx_tx]
  have hnpos : ¬ 0 < grand_total_cost c3cx_params c3cx_tx := by
    rw [hg]; norm_num
  have hsum : (PAYMENT_METHODS.map (cost_share_pct c3cx_params c3cx_tx)).sum = 0 := by
    simp [cost_share_pct, if_neg hnpos, PAYMENT_METHODS]
  refine ⟨hg, hsum, fun hcl => ?_⟩
  have := hcl (by rw [hg]; norm_num)
  rw [hsum] at this
  norm_num at this

/-- Claim C3 (amended): the per-category cost-share percentages sum to
exactly 100 whenever the grand total cost is positive and to 0 whenever it
is not positive (so also for negative, nonzero grand totals); the
transaction-share percentages likewise sum to 100 exactly when the grand
total transaction count is positive, and to 0 otherwise. -/
theorem share_percent_sum_spec (cost_params : PaymentMethod → CostParams)
    (transactions_dict : PaymentMethod → ℤ) :
    ((PAYMENT_METHODS.map (cost_share_pct cost_params transactions_dict)).sum =
      if 0 < grand_total_cost cost_params transactions_dict then 100 else 0) ∧
    ((PAYMENT_METHODS.map (transaction_share_pct cost_params transactions_dict)).sum =
      if 0 < grand_total_transactions cost_params transactions_dict then 100 else 0) := by
  constructor
  · by_cases h : 0 < grand_total_cost cost_params transactions_dict
    · rw [if_pos h]
      have hmap : PAYMENT_METHODS.map (cost_share_pct cost_params transactions_dict) =
          (PAYMENT_METHODS.map
            (fun pm => ((compute_costs cost_params transactions_dict).1 pm).total_cost)).map
            (fun x => x / grand_total_cost cost_params transactions_dict * 100) := by
        rw [List.map_map]
        refine List.map_congr_left fun pm _ => ?_
        simp [cost_share_pct, if_pos h, Function.comp]
      rw [hmap, sum_map_div_mul]
      show grand_total_cost cost_params transactions_dict /
        grand_total_cost cost_params transactions_dict * 100 = 100
      rw [div_self (ne_of_gt h)]
      norm_num
    · rw [if_neg h]
      simp [cost_share_pct, if_neg h, PAYMENT_METHODS]
  · by_cases h : 0 < grand_total_transactions cost_params transactions_dict
    · rw [if_pos h]
      have hmap : PAYMENT_METHODS.map (transaction_share_pct cost_params transactions_dict) =
          (PAYMENT_METHODS.map
            (fun pm => (((compute_costs cost_params transactions_dict).1 pm).transactions : ℚ))).map
            (fun x => x / (grand_total_transactions cost_params transactions_dict : ℚ) * 100) := by
        rw [List.map_map]
        refine List.map_congr_left fun pm _ => ?_
        simp [transaction_share_pct, if_pos h, Function.comp]
      have hsum : (PAYMENT_METHODS.map
          (fun pm => (((compute_costs cost_params transactions_dict).1 pm).transactions : ℚ))).sum =
          (grand_total_transactions cost_params transactions_dict : ℚ) := by
        rw [grand_total_transactions, Int.cast_list_sum, List.map_map]
        rfl
      have hne : (grand_total_transactions cost_params transactions_dict : ℚ) ≠ 0 := by
        exact_mod_cast ne_of_gt h
      rw [hmap, sum_map_div_mul, hsum, div_self hne]
      norm_num
    · rw [if_neg h]
      simp [transaction_share_pct, if_neg h, PAYMENT_METHODS]

/-- Claim C4: the Scenario Builder sets each scenario quantity to the
truncation toward zero of `baseline * growthFactor * (1 + change / 100)`:
it is the floor for non-negative products, the ceiling otherwise, and its
magnitude is the floor of the product's magnitude. -/
theorem scenario_tx_truncates_toward_zero (baseline_tx : PaymentMethod → ℤ)
    (growth_factor : ℚ) (relative_changes : PaymentMethod → ℚ) (pm : PaymentMethod) :
    scenario_tx baseline_tx growth_factor relative_changes pm =
      (if 0 ≤ (baseline_tx pm : ℚ) * growth_factor * (1 + relative_changes pm / 100)
       then ⌊(baseline_tx pm : ℚ) * growth_factor * (1 + relative_changes pm / 100)⌋
       else ⌈(baseline_tx pm : ℚ) * growth_factor * (1 + relative_changes pm / 100)⌉) ∧
    |scenario_tx baseline_tx growth_factor relative_changes pm| =
      ⌊|(baseline_tx pm : ℚ) * growth_factor * (1 + relative_changes pm / 100)|⌋ :=
  ⟨rfl, ratTrunc_abs _⟩

/-- Claim C5: per category, the comparison row's cost delta is scenario
total minus baseline total, and its percentage delta is
`delta / baselineTotal * 100` when the baseline total is positive and
exactly 0 otherwise — in particular exactly 0 when the baseline total is
0, regardless of the scenario total. -/
theorem comparison_row_spec (cost_params : PaymentMethod → CostParams)
    (baseline_tx scen_tx : PaymentMethod → ℤ) (pm : PaymentMethod) :
    comparison_cost_delta cost_params baseline_tx scen_tx pm =
      ((compute_costs cost_params scen_tx).1 pm).total_cost -
        ((compute_costs cost_params baseline_tx).1 pm).total_cost ∧
    comparison_cost_delta_pct cost_params baseline_tx scen_tx pm =
      (if 0 < ((compute_costs cost_params baseline_tx).1 pm).total_cost then
        comparison_cost_delta cost_params baseline_tx scen_tx pm /
          ((compute_costs cost_params baseline_tx).1 pm).total_cost * 100
       else 0) :=
  ⟨rfl, rfl⟩

/-- Claim C6: the TOTAL row's cost delta percent is recomputed from the
summed absolute cost columns — it equals the per-row formula applied to
the engine's grand totals: `(grandScenario - grandBaseline) /
grandBaseline * 100` when the summed baseline cost is positive, else 0. -/
theorem total_row_pct_from_grand_totals (cost_params : PaymentMethod → CostParams)
    (baseline_tx scen_tx : PaymentMethod → ℤ) :
    total_row_cost_delta_pct cost_params baseline_tx scen_tx =
      (if 0 < grand_total_cost cost_params baseline_tx then
        (grand_total_cost cost_params scen_tx -
          grand_total_cost cost_params baseline_tx) /
          grand_total_cost cost_params baseline_tx * 100
       else 0) :=
  rfl

/-- Claim C7: with growth factor 1 and all relative changes 0, the
Scenario Builder reproduces each (non-negative) baseline quantity
exactly. -/
theorem scenario_tx_identity (baseline_tx : PaymentMethod → ℤ) (pm : PaymentMethod)
    (h : 0 ≤ baseline_tx pm) :
    scenario_tx baseline_tx 1 (fun _ => 0) pm = baseline_tx pm := by
  have hq : ((baseline_tx pm : ℚ)) * 1 * (1 + 0 / 100) = (baseline_tx pm : ℚ) := by ring
  rw [scenario_tx]
  simp only [hq]
  rw [ratTrunc, if_pos (by exact_mod_cast h), Int.floor_intCast]

/-- Baseline quantities for the C7 witness: 5 transactions everywhere. -/
def c7w_tx : PaymentMethod → ℤ := fun _ => 5

/-- Witness for claim C7 at baseline quantity 5 on Visa. -/
theorem scenario_tx_identity_witness :
    (0:ℤ) ≤ c7w_tx PaymentMethod.visa ∧
    scenario_tx c7w_tx 1 (fun _ => 0) PaymentMethod.visa = c7w_tx PaymentMethod.visa ∧
    c7w_tx PaymentMethod.visa = 5 :=
  ⟨by norm_num [c7w_tx],
   scenario_tx_identity c7w_tx PaymentMethod.visa (by norm_num [c7w_tx]), rfl⟩

/-- Claim C8: a category with quantity 0 gets total cost exactly 0,
average cost per transaction exactly 0, and all five block costs 0. -/
theorem zero_quantity_yields_zero (cost_params : PaymentMethod → CostParams)
    (transactions_dict : PaymentMethod → ℤ) (pm : PaymentMethod)
    (h : transactions_dict pm = 0) :
    ((compute_costs cost_params transactions_dict).1 pm).total_cost = 0 ∧
    ((compute_costs cost_params transactions_dict).1 pm).avg_cost = 0 ∧
    ∀ cb, (compute_costs cost_params transactions_dict).2 pm cb = 0 := by
  refine ⟨?_, ?_, fun cb => ?_⟩
  · show (pm_costs (cost_params pm) (transactions_dict pm)).2 = 0
    rw [pm_costs_snd, h]
    simp [cost_blocks]
  · show (if 0 < transactions_dict pm then
        (pm_costs (cost_params pm) (transactions_dict pm)).2 /
          (transactions_dict pm : ℚ) else 0) = 0
    rw [h]
    simp
  · show (pm_costs (cost_params pm) (transactions_dict pm)).1 cb = 0
    rw [pm_costs_fst, h]
    simp

/-- Cost parameters for the C8 witness: all coefficients 1. -/
def c8w_params : PaymentMethod → CostParams := fun _ => ⟨1, 1, 1, 1, 1⟩

/-- Transaction counts for the C8 witness: 0 everywhere. -/
def c8w_tx : PaymentMethod → ℤ := fun _ => 0

/-- Witness for claim C8 at quantity 0 on Visa with all-ones parameters. -/
theorem zero_quantity_yields_zero_witness :
    c8w_tx PaymentMethod.visa = 0 ∧
    ((compute_costs c8w_params c8w_tx).1 PaymentMethod.visa).total_cost = 0 ∧
    ((compute_costs c8w_params c8w_tx).1 PaymentMethod.visa).avg_cost = 0 :=
  ⟨rfl, (zero_quantity_yields_zero c8w_params c8w_tx PaymentMethod.visa rfl).1,
    (zero_quantity_yields_zero c8w_params c8w_tx PaymentMethod.visa rfl).2.1⟩

/-- Claim C9: per category, the five block costs in the breakdown sum to
that category's total cost, and the derived `Total` column of the
breakdown table equals the same total (additivity invariant). -/
theorem breakdown_additivity (cost_params : PaymentMethod → CostParams)
    (transactions_dict : PaymentMethod → ℤ) (pm : PaymentMethod) :
    (cost_blocks.map ((compute_costs cost_params transactions_dict).2 pm)).sum =
      ((compute_costs cost_params transactions_dict).1 pm).total_cost ∧
    breakdown_total_column cost_params transactions_dict pm =
      ((compute_costs cost_params transactions_dict).1 pm).total_cost := by
  have h : (cost_blocks.map ((compute_costs cost_params transactions_dict).2 pm)).sum =
      ((compute_costs cost_params transactions_dict).1 pm).total_cost := by
    show (cost_blocks.map ((pm_costs (cost_params pm) (transactions_dict pm)).1)).sum =
      (pm_costs (cost_params pm) (transactions_dict pm)).2
    rw [pm_costs_snd]
    congr 1
    exact List.map_congr_left fun cb _ => pm_costs_fst _ _ cb
  exact ⟨h, h⟩

/-- Claim C10: although no explicit clamp exists, a non-negative baseline
quantity, a non-negative growth factor and a relative change of at least
-100 % always yield a non-negative scenario quantity. -/
theorem scenario_tx_nonneg (baseline_tx : PaymentMethod → ℤ) (growth_factor : ℚ)
    (relative_changes : PaymentMethod → ℚ) (pm : PaymentMethod)
    (h1 : 0 ≤ baseline_tx pm) (h2 : 0 ≤ growth_factor)
    (h3 : -100 ≤ relative_changes pm) :
    0 ≤ scenario_tx baseline_tx growth_factor relative_changes pm := by
  have hfac : (0:ℚ) ≤ 1 + relative_changes pm / 100 := by linarith
  have hb : (0:ℚ) ≤ (baseline_tx pm : ℚ) := by exact_mod_cast h1
  have hq : 0 ≤ (baseline_tx pm : ℚ) * growth_factor *
      (1 + relative_changes pm / 100) :=
    mul_nonneg (mul_nonneg hb h2) hfac
  simp only [scenario_tx, ratTrunc]
  rw [if_pos hq]
  exact Int.floor_nonneg.mpr hq

/-- Baseline quantities for the C10 witness: 100 transactions everywhere. -/
def c10w_tx : PaymentMethod → ℤ := fun _ => 100

/-- Relative changes for the C10 witness: -50 % everywhere. -/
def c10w_rel : PaymentMethod → ℚ := fun _ => -50

/-- Witness for claim C10 at baseline 100, growth 3/2, change -50 % on
TWINT. -/
theorem scenario_tx_nonneg_witness :
    (0:ℤ) ≤ c10w_tx PaymentMethod.twint ∧ (0:ℚ) ≤ 3/2 ∧
    (-100:ℚ) ≤ c10w_rel PaymentMethod.twint ∧
    0 ≤ scenario_tx c10w_tx (3/2) c10w_rel PaymentMethod.twint :=
  ⟨by norm_num [c10w_tx], by norm_num, by norm_num [c10w_rel],
    scenario_tx_nonneg c10w_tx (3/2) c10w_rel PaymentMethod.twint
      (by norm_num [c10w_tx]) (by norm_num) (by norm_num [c10w_rel])⟩
